import Mathlib

/-!
Shallow embedding of the go-dicom core (transfer-syntax resolution and the
file-decoder orchestration) together with theorems settling the spec claims.

Source files embedded: `transfersyntax.go` (CanonicalTransferSyntaxUID,
ParseTransferSyntaxUID) and the DICOM file parser (`Parse`, `ParseBytes`,
`LookupElementByTag`, `LookupElementByName`).  Repository code that is only
declared or called from these files (the UID registry `LookupUID`, the tag
dictionary `LookupTagByName`, the `Decoder`, `ParseFileHeader`,
`ReadDataElement`, `parseSpecificCharacterSet`, `GetString`) is modelled from
the specification, as marked in the individual doc comments.
-/

namespace Dicom

/-- A DICOM tag: an ordered pair of unsigned 16-bit integers (group, element).
Transcribed from the repository's `Tag` struct (two uint16 fields). -/
structure Tag where
  group : Nat
  element : Nat
deriving DecidableEq, Repr

/-- Transcribed from `transfersyntax.go`: the implicit-VR little-endian UID. -/
def ImplicitVRLittleEndian : String := "1.2.840.10008.1.2"

/-- Transcribed from `transfersyntax.go`: the explicit-VR little-endian UID. -/
def ExplicitVRLittleEndian : String := "1.2.840.10008.1.2.1"

/-- Transcribed from `transfersyntax.go`: the explicit-VR big-endian UID. -/
def ExplicitVRBigEndian : String := "1.2.840.10008.1.2.2"

/-- Transcribed from `transfersyntax.go`: the deflated explicit-VR
little-endian UID. -/
def DeflatedExplicitVRLittleEndian : String := "1.2.840.10008.1.2.1.99"

/-- Transcribed from `transfersyntax.go`: the standard list of transfer
syntaxes. -/
def StandardTransferSyntaxes : List String :=
  [ImplicitVRLittleEndian, ExplicitVRLittleEndian, ExplicitVRBigEndian,
   DeflatedExplicitVRLittleEndian]

/-- Modelled from the spec: the UID registry category value for transfer
syntaxes (`uids.go` is not under src/; the registry maps each UID to a
name and a category string). -/
def UIDTypeTransferSyntax : String := "Transfer Syntax"

/-- Modelled from the spec: one entry of the UID registry — a UID's metadata
(human name and category). -/
structure UIDEntry where
  Name : String
  uidType : String
deriving DecidableEq, Repr

/-- Modelled from the spec: the static UID registry, a mapping from UID string
to metadata.  `uids.go` is not under src/, so the registry's table is left
as a parameter; all theorems quantify over it. -/
abbrev UIDRegistry : Type := String → Option UIDEntry

/-- Errors of the decoder, following the spec's taxonomy (§7).  Constructors
carry the data the source formats into its error messages. -/
inductive DicomError where
  | unknownUID (uid : String)
  | notATransferSyntax (uid : String) (actualType : String)
  | elementNotFoundByTag (tag : Tag)
  | elementNotFoundByName (name : String)
  | tagNotFoundByName (name : String)
  | unexpectedEOF
  | other (msg : String)
deriving DecidableEq, Repr

/-- Modelled from the spec: `LookupUID` (declared in `uids.go`, not under
src/) looks a UID up in the registry; if absent it fails with the
unknown-UID error. -/
def LookupUID (reg : UIDRegistry) (uid : String) : Except DicomError UIDEntry :=
  match reg uid with
  | none => .error (.unknownUID uid)
  | some e => .ok e

/-- Transcribed from `transfersyntax.go` `CanonicalTransferSyntaxUID`: the
four well-known UIDs are returned unchanged; otherwise the UID is looked
up in the registry, failing if absent or if its category is not
"transfer syntax", and defaulting to explicit-VR little-endian otherwise. -/
def CanonicalTransferSyntaxUID (reg : UIDRegistry) (uid : String) :
    Except DicomError String :=
  if uid = ImplicitVRLittleEndian ∨ uid = ExplicitVRLittleEndian ∨
     uid = ExplicitVRBigEndian ∨ uid = DeflatedExplicitVRLittleEndian then
    .ok uid
  else
    match LookupUID reg uid with
    | .error err => .error err
    | .ok e =>
      if e.uidType ≠ UIDTypeTransferSyntax then
        .error (.notATransferSyntax uid e.uidType)
      else
        .ok ExplicitVRLittleEndian

/-- Byte order, standing for Go's `binary.ByteOrder` values used by the
source (`binary.LittleEndian`, `binary.BigEndian`). -/
inductive ByteOrder where
  | littleEndian
  | bigEndian
deriving DecidableEq, Repr

/-- Outcome of `ParseTransferSyntaxUID`.  The Go function either returns a
(byte order, implicit flag) pair, returns an error, or reaches
`log.Panic` in the default branch of its switch; the `panicked`
constructor records that process-aborting branch with the values the
source logs. -/
inductive ParseTSResult where
  | ok (bo : ByteOrder) (implicit : Bool)
  | err (e : DicomError)
  | panicked (canonical : String) (uid : String)
deriving DecidableEq, Repr

/-- Transcribed from `transfersyntax.go` `ParseTransferSyntaxUID`:
canonicalize, then switch on the canonical UID.  The switch has cases for
implicit-VR LE, explicit-VR LE and explicit-VR BE only; every other
canonical value (including the deflated UID) falls to the `log.Panic`
default branch. -/
def ParseTransferSyntaxUID (reg : UIDRegistry) (uid : String) : ParseTSResult :=
  match CanonicalTransferSyntaxUID reg uid with
  | .error e => .err e
  | .ok canonical =>
    if canonical = ImplicitVRLittleEndian then
      .ok .littleEndian true
    else if canonical = ExplicitVRLittleEndian then
      .ok .littleEndian false
    else if canonical = ExplicitVRBigEndian then
      .ok .bigEndian false
    else
      .panicked canonical uid

/-- C1: the claim says the deflated explicit-VR little-endian UID maps to
(little-endian, implicitVR=false).  On the code, that UID canonicalizes to
itself, and `ParseTransferSyntaxUID`'s switch has no case for it, so the
`log.Panic` default branch is reached instead — independently of the UID
registry. -/
theorem parseTransferSyntaxUID_deflated_reaches_panic (reg : UIDRegistry) :
    ParseTransferSyntaxUID reg DeflatedExplicitVRLittleEndian =
      .panicked DeflatedExplicitVRLittleEndian DeflatedExplicitVRLittleEndian := by
  simp [ParseTransferSyntaxUID, CanonicalTransferSyntaxUID,
    ImplicitVRLittleEndian, ExplicitVRLittleEndian, ExplicitVRBigEndian,
    DeflatedExplicitVRLittleEndian]

/-- C2: the claim says the fatal branch is unreachable for any UID that
canonicalizes successfully.  On the code, the deflated UID canonicalizes
successfully (to itself) and yet `ParseTransferSyntaxUID` reaches the
`log.Panic` branch rather than returning an error, for every UID
registry. -/
theorem panic_branch_reachable_after_successful_canonicalization (reg : UIDRegistry) :
    CanonicalTransferSyntaxUID reg DeflatedExplicitVRLittleEndian =
        .ok DeflatedExplicitVRLittleEndian ∧
      ∃ c u, ParseTransferSyntaxUID reg DeflatedExplicitVRLittleEndian =
        .panicked c u := by
  refine ⟨?_, DeflatedExplicitVRLittleEndian, DeflatedExplicitVRLittleEndian, ?_⟩ <;>
    simp [ParseTransferSyntaxUID, CanonicalTransferSyntaxUID,
      ImplicitVRLittleEndian, ExplicitVRLittleEndian, ExplicitVRBigEndian,
      DeflatedExplicitVRLittleEndian]

/-- C3: each of the four well-known transfer-syntax UIDs canonicalizes to
itself, for every UID registry — the registry is never consulted on this
path. -/
theorem canonicalTransferSyntaxUID_wellKnown_fixed (reg : UIDRegistry) :
    CanonicalTransferSyntaxUID reg ImplicitVRLittleEndian = .ok ImplicitVRLittleEndian ∧
    CanonicalTransferSyntaxUID reg ExplicitVRLittleEndian = .ok ExplicitVRLittleEndian ∧
    CanonicalTransferSyntaxUID reg ExplicitVRBigEndian = .ok ExplicitVRBigEndian ∧
    CanonicalTransferSyntaxUID reg DeflatedExplicitVRLittleEndian =
      .ok DeflatedExplicitVRLittleEndian := by
  refine ⟨?_, ?_, ?_, ?_⟩ <;>
    simp [CanonicalTransferSyntaxUID, ImplicitVRLittleEndian,
      ExplicitVRLittleEndian, ExplicitVRBigEndian, DeflatedExplicitVRLittleEndian]

/-- C4: for a UID that is none of the four well-known ones, canonicalization
fails with the unknown-UID error when the registry has no entry, and with
the not-a-transfer-syntax error naming the actual category when the entry
has a different category. -/
theorem canonicalTransferSyntaxUID_lookup_errors (reg : UIDRegistry) (uid : String)
    (hw : ¬(uid = ImplicitVRLittleEndian ∨ uid = ExplicitVRLittleEndian ∨
            uid = ExplicitVRBigEndian ∨ uid = DeflatedExplicitVRLittleEndian)) :
    (reg uid = none →
      CanonicalTransferSyntaxUID reg uid = .error (.unknownUID uid)) ∧
    (∀ e, reg uid = some e → e.uidType ≠ UIDTypeTransferSyntax →
      CanonicalTransferSyntaxUID reg uid = .error (.notATransferSyntax uid e.uidType)) := by
  constructor
  · intro hnone
    simp [CanonicalTransferSyntaxUID, LookupUID, hw, hnone]
  · intro e hsome hty
    simp [CanonicalTransferSyntaxUID, LookupUID, hw, hsome, hty]

/-- A closed instance of the C4 theorem: a registry with no entries rejects
"9.9.9.9" as unknown, and a registry classifying it as a SOP class rejects
it as not a transfer syntax, naming the category. -/
theorem canonicalTransferSyntaxUID_lookup_errors_witness :
    CanonicalTransferSyntaxUID (fun _ => none) "9.9.9.9" =
        .error (.unknownUID "9.9.9.9") ∧
      CanonicalTransferSyntaxUID
        (fun u => if u = "9.9.9.9" then some ⟨"Some SOP", "SOP Class"⟩ else none)
        "9.9.9.9" =
        .error (.notATransferSyntax "9.9.9.9" "SOP Class") := by
  constructor
  · exact (canonicalTransferSyntaxUID_lookup_errors (fun _ => none) "9.9.9.9"
      (by decide)).1 rfl
  · exact (canonicalTransferSyntaxUID_lookup_errors
      (fun u => if u = "9.9.9.9" then some ⟨"Some SOP", "SOP Class"⟩ else none)
      "9.9.9.9" (by decide)).2 ⟨"Some SOP", "SOP Class"⟩ (by simp) (by decide)

/-- C5: a UID that is not one of the four well-known ones but is registered
with category "transfer syntax" canonicalizes to the explicit-VR
little-endian UID. -/
theorem canonicalTransferSyntaxUID_registered_default (reg : UIDRegistry)
    (uid : String) (e : UIDEntry)
    (hw : ¬(uid = ImplicitVRLittleEndian ∨ uid = ExplicitVRLittleEndian ∨
            uid = ExplicitVRBigEndian ∨ uid = DeflatedExplicitVRLittleEndian))
    (hsome : reg uid = some e) (hty : e.uidType = UIDTypeTransferSyntax) :
    CanonicalTransferSyntaxUID reg uid = .ok ExplicitVRLittleEndian := by
  simp [CanonicalTransferSyntaxUID, LookupUID, hw, hsome, hty]

/-- A closed instance of the C5 theorem: a registry holding "1.2.840.10008.1.2.4.50"
as a transfer syntax canonicalizes it to the explicit-VR little-endian UID. -/
theorem canonicalTransferSyntaxUID_registered_default_witness :
    CanonicalTransferSyntaxUID
      (fun u => if u = "1.2.840.10008.1.2.4.50"
                then some ⟨"JPEG Baseline", UIDTypeTransferSyntax⟩ else none)
      "1.2.840.10008.1.2.4.50" = .ok ExplicitVRLittleEndian :=
  canonicalTransferSyntaxUID_registered_default
    (fun u => if u = "1.2.840.10008.1.2.4.50"
              then some ⟨"JPEG Baseline", UIDTypeTransferSyntax⟩ else none)
    "1.2.840.10008.1.2.4.50" ⟨"JPEG Baseline", UIDTypeTransferSyntax⟩
    (by decide) (by simp) rfl

/-- C6: canonicalization is idempotent — whenever it succeeds with result c,
applying it to c succeeds and returns c, for every UID registry. -/
theorem canonicalTransferSyntaxUID_idempotent (reg : UIDRegistry) (uid c : String)
    (h : CanonicalTransferSyntaxUID reg uid = .ok c) :
    CanonicalTransferSyntaxUID reg c = .ok c := by
  unfold CanonicalTransferSyntaxUID at h
  by_cases hw : uid = ImplicitVRLittleEndian ∨ uid = ExplicitVRLittleEndian ∨
      uid = ExplicitVRBigEndian ∨ uid = DeflatedExplicitVRLittleEndian
  · rw [if_pos hw] at h
    have hc : uid = c := by
      simpa using h
    subst hc
    simp [CanonicalTransferSyntaxUID, hw]
  · rw [if_neg hw] at h
    rcases hreg : LookupUID reg uid with e | e
    · rw [hreg] at h
      simp at h
    · rw [hreg] at h
      by_cases hty : e.uidType = UIDTypeTransferSyntax
      · simp [hty] at h
        subst h
        simp [CanonicalTransferSyntaxUID, ImplicitVRLittleEndian,
          ExplicitVRLittleEndian, ExplicitVRBigEndian,
          DeflatedExplicitVRLittleEndian]
      · simp [hty] at h

/-- A closed instance of the C6 theorem: the big-endian UID canonicalizes to
itself under the empty registry, and canonicalizing the result again gives
the same UID. -/
theorem canonicalTransferSyntaxUID_idempotent_witness :
    CanonicalTransferSyntaxUID (fun _ => none) ExplicitVRBigEndian =
      .ok ExplicitVRBigEndian :=
  canonicalTransferSyntaxUID_idempotent (fun _ => none) ExplicitVRBigEndian
    ExplicitVRBigEndian
    (by simp [CanonicalTransferSyntaxUID, ImplicitVRLittleEndian,
      ExplicitVRLittleEndian, ExplicitVRBigEndian, DeflatedExplicitVRLittleEndian])

mutual

/-- A DICOM data element, transcribed from the parser's `DicomElement` struct:
a tag, a two-letter VR code, the value length, and the list of values.
The Go field `Value []interface{}` is a list of dynamically typed values;
here it is the closed variant type `DicomValue`. -/
inductive DicomElement where
  | mk (tag : Tag) (vr : String) (vl : Nat) (value : List DicomValue)

/-- One value of a data element: the variants the source stores in the
dynamic `Value` list — strings, raw bytes, tags, fixed-width integers,
raw float bits, and nested elements for sequence/item containers. -/
inductive DicomValue where
  | str (s : String)
  | bytes (b : List Nat)
  | tagValue (t : Tag)
  | uint16 (n : Nat)
  | uint32 (n : Nat)
  | int16 (n : Int)
  | int32 (n : Int)
  | float32bits (n : Nat)
  | float64bits (n : Nat)
  | element (e : DicomElement)

end

/-- Accessor for a data element's tag (the Go field `DicomElement.Tag`). -/
def DicomElement.Tag : DicomElement → Tag
  | .mk t _ _ _ => t

/-- Accessor for a data element's VR code (the Go field `DicomElement.Vr`). -/
def DicomElement.Vr : DicomElement → String
  | .mk _ vr _ _ => vr

/-- Accessor for a data element's value length (the Go field
`DicomElement.Vl`). -/
def DicomElement.Vl : DicomElement → Nat
  | .mk _ _ vl _ => vl

/-- Accessor for a data element's values (the Go field
`DicomElement.Value`). -/
def DicomElement.Value : DicomElement → List DicomValue
  | .mk _ _ _ v => v

/-- Result of parsing one DICOM file, transcribed from the parser's
`DicomFile` struct: the elements in order of appearance, meta elements
included. -/
structure DicomFile where
  Elements : List DicomElement

/-- Modelled from the spec: the transfer-syntax UID tag — group 0x0002 with
the fixed element number 0x0010 (`tags.go` is not under src/). -/
def TagTransferSyntaxUID : Tag := ⟨0x0002, 0x0010⟩

/-- Modelled from the spec: the Specific Character Set tag (0008,0005)
(`tags.go` is not under src/). -/
def TagSpecificCharacterSet : Tag := ⟨0x0008, 0x0005⟩

/-- Modelled from the spec: one entry of the tag dictionary — the tag a
standard name resolves to (`tags.go` is not under src/). -/
structure TagInfo where
  Tag : Tag
  Name : String
deriving DecidableEq, Repr

/-- Modelled from the spec: the static tag dictionary from standard name to
tag entry, left as a parameter since `tags.go` is not under src/. -/
abbrev TagDict : Type := String → Option TagInfo

/-- Modelled from the spec: `LookupTagByName` (declared in `tags.go`, not
under src/) resolves a standard element name to its tag dictionary entry,
failing if the name is unknown. -/
def LookupTagByName (dict : TagDict) (name : String) : Except DicomError TagInfo :=
  match dict name with
  | none => .error (.tagNotFoundByName name)
  | some t => .ok t

/-- Transcribed from the parser's `LookupElementByTag`: scan `elems` in order
and return the first element whose tag equals `tag`; if none matches,
return the could-not-find-element error. -/
def LookupElementByTag (elems : List DicomElement) (tag : Tag) :
    Except DicomError DicomElement :=
  match elems with
  | [] => .error (.elementNotFoundByTag tag)
  | elem :: rest =>
    if elem.Tag = tag then .ok elem else LookupElementByTag rest tag

/-- The scan loop of `LookupElementByName`: return the first element of
`elems` whose tag equals `tag`; when the list is exhausted, return the
could-not-find-element error naming the queried name, as the source
does. -/
def lookupElementByNameLoop (elems : List DicomElement) (tag : Tag)
    (name : String) : Except DicomError DicomElement :=
  match elems with
  | [] => .error (.elementNotFoundByName name)
  | elem :: rest =>
    if elem.Tag = tag then .ok elem else lookupElementByNameLoop rest tag name

/-- Transcribed from the parser's `LookupElementByName`: resolve the name via
the tag dictionary, then scan `elems` in order for the first element with
that tag; if none matches, return the could-not-find-element error naming
the queried name. -/
def LookupElementByName (dict : TagDict) (elems : List DicomElement)
    (name : String) : Except DicomError DicomElement :=
  match LookupTagByName dict name with
  | .error e => .error e
  | .ok t => lookupElementByNameLoop elems t.Tag name

/-- Helper: `LookupElementByTag` is the first-match search `List.find?`. -/
theorem lookupElementByTag_eq_find (elems : List DicomElement) (tag : Tag) :
    LookupElementByTag elems tag =
      match elems.find? (fun elem => decide (elem.Tag = tag)) with
      | some elem => .ok elem
      | none => .error (.elementNotFoundByTag tag) := by
  induction elems with
  | nil => rfl
  | cons elem rest ih =>
    by_cases h : elem.Tag = tag
    · simp [LookupElementByTag, List.find?, h]
    · simp [LookupElementByTag, List.find?, h, ih]

/-- Helper: the scan loop of `LookupElementByName` is the first-match search
`List.find?`. -/
theorem lookupElementByNameLoop_eq_find (elems : List DicomElement) (tag : Tag)
    (name : String) :
    lookupElementByNameLoop elems tag name =
      match elems.find? (fun elem => decide (elem.Tag = tag)) with
      | some elem => .ok elem
      | none => .error (.elementNotFoundByName name) := by
  induction elems with
  | nil => rfl
  | cons elem rest ih =>
    by_cases h : elem.Tag = tag
    · simp [lookupElementByNameLoop, List.find?, h]
    · simp [lookupElementByNameLoop, List.find?, h, ih]

/-- C8: both lookup helpers return the first element in list order whose tag
equals the queried tag (`List.find?` of the tag predicate), and the
not-found error when no element matches; `LookupElementByName` first
resolves the name through the tag dictionary and propagates its error. -/
theorem lookup_helpers_return_first_match (dict : TagDict)
    (elems : List DicomElement) (tag : Tag) (name : String) :
    LookupElementByTag elems tag =
      (match elems.find? (fun elem => decide (elem.Tag = tag)) with
       | some elem => Except.ok elem
       | none => Except.error (.elementNotFoundByTag tag)) ∧
    LookupElementByName dict elems name =
      (match LookupTagByName dict name with
       | .error e => Except.error e
       | .ok t =>
         match elems.find? (fun elem => decide (elem.Tag = t.Tag)) with
         | some elem => Except.ok elem
         | none => Except.error (.elementNotFoundByName name)) := by
  refine ⟨lookupElementByTag_eq_find elems tag, ?_⟩
  unfold LookupElementByName
  rcases LookupTagByName dict name with e | t
  · rfl
  · exact lookupElementByNameLoop_eq_find elems t.Tag name

/-- Modelled from the spec: the active text coding system is an opaque piece
of Cursor state (its decoding behavior never matters to the claims), here
represented by an identifier string; the empty string is the default. -/
abbrev CodingSystem : Type := String

/-- The transfer-syntax context held by the Cursor: byte order plus the
implicit-VR flag (spec §3). -/
structure TransferSyntaxCtx where
  byteOrder : ByteOrder
  implicitVR : Bool
deriving DecidableEq, Repr

/-- Modelled from the spec: the Cursor/Decoder state (`dicomio` is not under
src/) — the unread portion of the input, the number of unread declared
bytes, the sticky first-error slot, the stack of transfer-syntax
contexts, and the active coding system. -/
structure Decoder where
  input : List Nat
  len : Nat
  err : Option DicomError
  tsStack : List TransferSyntaxCtx
  cs : CodingSystem

/-- Modelled from the spec: `NewDecoder(in, bytes, binary.LittleEndian,
ExplicitVR)` — a fresh Cursor over the input with the given declared
length, no recorded error, the initial explicit-VR little-endian context,
and the default coding system. -/
def NewDecoder (input : List Nat) (bytes : Nat) : Decoder :=
  ⟨input, bytes, none, [⟨.littleEndian, false⟩], ""⟩

/-- Modelled from the spec: `SetError` records an error in the sticky slot;
the first recorded error wins and is never overwritten. -/
def Decoder.SetError (d : Decoder) (e : DicomError) : Decoder :=
  match d.err with
  | some _ => d
  | none => { d with err := some e }

/-- Modelled from the spec: `SetCodingSystem` replaces the Cursor's active
coding system in place. -/
def Decoder.SetCodingSystem (d : Decoder) (cs : CodingSystem) : Decoder :=
  { d with cs := cs }

/-- Modelled from the spec: `PushTransferSyntax` pushes a context onto the
Cursor's transfer-syntax stack. -/
def Decoder.PushTransferSyntax (d : Decoder) (ctx : TransferSyntaxCtx) : Decoder :=
  { d with tsStack := ctx :: d.tsStack }

/-- Modelled from the spec: `PopTransferSyntax` pops the top context off the
Cursor's transfer-syntax stack. -/
def Decoder.PopTransferSyntax (d : Decoder) : Decoder :=
  { d with tsStack := d.tsStack.tail }

/-- Modelled from the spec: `Finish` returns the recorded sticky error, if
any, after all reads. -/
def Decoder.Finish (d : Decoder) : Option DicomError :=
  d.err

/-- Modelled from the spec: the subcomponents of the file decoder whose code
is not under src/ — the meta-header reader (`ParseFileHeader`), the
element reader (`ReadDataElement`), the Specific-Character-Set value
decoder (`parseSpecificCharacterSet`), the element string accessor
(`GetString`) and the UID registry table.  They are abstract state
transformers constrained only by the spec's progress guarantee: a read
either consumes input or records an error (spec §4.2: bounds violations
are recorded as errors, so a read on a non-empty cursor cannot both leave
the length unchanged and succeed). -/
structure SubComponents where
  ParseFileHeader : Decoder → List DicomElement × Decoder
  ReadDataElement : Decoder → DicomElement × Decoder
  parseSpecificCharacterSet : DicomElement → Except DicomError CodingSystem
  GetString : DicomElement → Except DicomError String
  reg : UIDRegistry
  read_progress : ∀ d : Decoder,
    (ReadDataElement d).2.len < d.len ∨ (ReadDataElement d).2.err ≠ none

/-- The Specific-Character-Set branch of Parse's main loop, transcribed from
the parser: if the element's tag is the Specific Character Set tag, decode
its value and either record the error or install the new coding system;
otherwise leave the decoder unchanged. -/
def handleCharset (subs : SubComponents) (elem : DicomElement) (d : Decoder) :
    Decoder :=
  if elem.Tag = TagSpecificCharacterSet then
    match subs.parseSpecificCharacterSet elem with
    | .error e => d.SetError e
    | .ok cs => d.SetCodingSystem cs
  else
    d

/-- Helper: the charset branch never changes the number of unread bytes. -/
theorem handleCharset_len (subs : SubComponents) (elem : DicomElement)
    (d : Decoder) : (handleCharset subs elem d).len = d.len := by
  unfold handleCharset Decoder.SetError Decoder.SetCodingSystem
  rcases h : d.err with _ | e <;>
    rcases hc : subs.parseSpecificCharacterSet elem with e | cs <;>
    split <;> simp_all

/-- The main-dataset loop of `Parse`, transcribed from the parser: while
unread bytes remain, read one element; if the cursor then reports an
error, stop without appending it; otherwise run the Specific-Character-Set
branch and append the element to the accumulated list. -/
def parseLoop (subs : SubComponents) (acc : List DicomElement) (d : Decoder) :
    List DicomElement × Decoder :=
  if 0 < d.len then
    if hE : (subs.ReadDataElement d).2.err ≠ none then
      (acc, (subs.ReadDataElement d).2)
    else
      parseLoop subs (acc ++ [(subs.ReadDataElement d).1])
        (handleCharset subs (subs.ReadDataElement d).1 (subs.ReadDataElement d).2)
  else
    (acc, d)
termination_by d.len
decreasing_by
  rw [handleCharset_len]
  rcases subs.read_progress d with hlt | herr
  · exact hlt
  · exact absurd herr hE

/-- Outcome of `Parse`: either the Go pair of (possibly nil) file and
(possibly nil) error, or the process panic reached through
`ParseTransferSyntaxUID`'s default branch. -/
inductive ParseOutcome where
  | result (file : Option DicomFile) (err : Option DicomError)
  | panicked (canonical : String) (uid : String)

/-- Transcribed from the parser's `Parse`: build a decoder over the input,
read the meta header (returning its error if the cursor failed), locate
the transfer-syntax UID element among the meta elements, extract its
string value, resolve the encoding, push it, loop over the main dataset
starting from the meta elements, and return the assembled file together
with the cursor's final error.  The deferred `PopTransferSyntax` only
mutates the decoder, which is dead at return, after `Finish` has been
evaluated. -/
def Parse (subs : SubComponents) (input : List Nat) (bytes : Nat) :
    ParseOutcome :=
  match subs.ParseFileHeader (NewDecoder input bytes) with
  | (metaElems, buffer) =>
    match buffer.err with
    | some e => .result none (some e)
    | none =>
      match LookupElementByTag metaElems TagTransferSyntaxUID with
      | .error e => .result none (some e)
      | .ok elem =>
        match subs.GetString elem with
        | .error e => .result none (some e)
        | .ok transferSyntaxUID =>
          match ParseTransferSyntaxUID subs.reg transferSyntaxUID with
          | .err e => .result none (some e)
          | .panicked c u => .panicked c u
          | .ok endian implicit =>
            match parseLoop subs metaElems
                (buffer.PushTransferSyntax ⟨endian, implicit⟩) with
            | (elems, final) => .result (some ⟨elems⟩) final.Finish

/-- Transcribed from the parser's `ParseBytes`: the declared shorthand for
`Parse` over a buffer reader with the buffer's length. -/
def ParseBytes (subs : SubComponents) (data : List Nat) : ParseOutcome :=
  Parse subs data data.length

/-- Helper: the one-step unfolding equation of `parseLoop`. -/
theorem parseLoop_eq (subs : SubComponents) (acc : List DicomElement)
    (d : Decoder) :
    parseLoop subs acc d =
      if 0 < d.len then
        if hE : (subs.ReadDataElement d).2.err ≠ none then
          (acc, (subs.ReadDataElement d).2)
        else
          parseLoop subs (acc ++ [(subs.ReadDataElement d).1])
            (handleCharset subs (subs.ReadDataElement d).1
              (subs.ReadDataElement d).2)
      else
        (acc, d) := by
  rw [parseLoop]

/-- Helper: the elements produced by `parseLoop` extend the accumulator —
already-decoded elements stay at the front, in order. -/
theorem parseLoop_elements_extend (subs : SubComponents) :
    ∀ (n : Nat) (acc : List DicomElement) (d : Decoder), d.len ≤ n →
      ∃ tail, (parseLoop subs acc d).1 = acc ++ tail := by
  intro n
  induction n with
  | zero =>
    intro acc d hd
    have h0 : ¬ 0 < d.len := by omega
    rw [parseLoop_eq, if_neg h0]
    exact ⟨[], by simp⟩
  | succ n ih =>
    intro acc d hd
    by_cases h0 : 0 < d.len
    · rw [parseLoop_eq, if_pos h0]
      by_cases hE : (subs.ReadDataElement d).2.err ≠ none
      · rw [dif_pos hE]
        exact ⟨[], by simp⟩
      · rw [dif_neg hE]
        have hlen : (handleCharset subs (subs.ReadDataElement d).1
            (subs.ReadDataElement d).2).len ≤ n := by
          rw [handleCharset_len]
          rcases subs.read_progress d with hlt | herr
          · omega
          · exact absurd herr hE
        obtain ⟨tail, ht⟩ := ih (acc ++ [(subs.ReadDataElement d).1]) _ hlen
        exact ⟨(subs.ReadDataElement d).1 :: tail, by rw [ht]; simp⟩
    · rw [parseLoop_eq, if_neg h0]
      exact ⟨[], by simp⟩

/-- C9: the main-dataset loop (a) only ever extends the accumulated list at
the back, so the meta elements and all elements decoded before an error
remain, in order; (b) stops as soon as the cursor reports an error after a
read, without appending the element read in that iteration; (c) on a
successful read appends exactly that element at the end before continuing;
and (d) at the `Parse` level, when the header, lookup, string extraction
and transfer-syntax resolution all succeed, the returned `DicomFile`
consists of the meta elements followed by the dataset elements, alongside
the cursor's final error. -/
theorem parse_loop_order_and_error_stop (subs : SubComponents)
    (acc : List DicomElement) (d : Decoder) :
    (∃ tail, (parseLoop subs acc d).1 = acc ++ tail) ∧
    (0 < d.len → (subs.ReadDataElement d).2.err ≠ none →
      parseLoop subs acc d = (acc, (subs.ReadDataElement d).2)) ∧
    (0 < d.len → (subs.ReadDataElement d).2.err = none →
      parseLoop subs acc d =
        parseLoop subs (acc ++ [(subs.ReadDataElement d).1])
          (handleCharset subs (subs.ReadDataElement d).1
            (subs.ReadDataElement d).2)) ∧
    (∀ (input : List Nat) (bytes : Nat) (metaElems : List DicomElement)
       (d1 : Decoder) (elem : DicomElement) (uid : String) (bo : ByteOrder)
       (impl : Bool),
      subs.ParseFileHeader (NewDecoder input bytes) = (metaElems, d1) →
      d1.err = none →
      LookupElementByTag metaElems TagTransferSyntaxUID = .ok elem →
      subs.GetString elem = .ok uid →
      ParseTransferSyntaxUID subs.reg uid = .ok bo impl →
      ∃ tail ferr,
        Parse subs input bytes = .result (some ⟨metaElems ++ tail⟩) ferr) := by
  refine ⟨parseLoop_elements_extend subs d.len acc d le_rfl, ?_, ?_, ?_⟩
  · intro h0 hE
    rw [parseLoop_eq, if_pos h0, dif_pos hE]
  · intro h0 hE
    rw [parseLoop_eq, if_pos h0, dif_neg (by simp [hE])]
  · intro input bytes metaElems d1 elem uid bo impl hheader hok hlookup hget hts
    unfold Parse
    rw [hheader]
    obtain ⟨tail, ht⟩ := parseLoop_elements_extend subs
      (d1.PushTransferSyntax ⟨bo, impl⟩).len metaElems
      (d1.PushTransferSyntax ⟨bo, impl⟩) le_rfl
    rcases hp : parseLoop subs metaElems (d1.PushTransferSyntax ⟨bo, impl⟩)
      with ⟨elems, final⟩
    rw [hp] at ht
    refine ⟨tail, final.Finish, ?_⟩
    simp only [hok, hlookup, hget, hts, hp]
    simp only at ht
    rw [ht]

/-- A concrete subcomponent instance for closed witnesses: the meta header
yields one element whose tag is not the transfer-syntax tag, and every
element read records an end-of-input error. -/
def subs0 : SubComponents where
  ParseFileHeader := fun d => ([.mk ⟨0x0002, 0x0002⟩ "UI" 0 []], d)
  ReadDataElement := fun d => (.mk ⟨0, 0⟩ "" 0 [], d.SetError .unexpectedEOF)
  parseSpecificCharacterSet := fun _ => .ok ""
  GetString := fun _ => .error (.other "no value")
  reg := fun _ => none
  read_progress := by
    intro d
    right
    rcases h : d.err with _ | e <;> simp [Decoder.SetError, h]

/-- A closed instance of the C9 theorem: on a decoder with five unread bytes,
`subs0`'s first read records an error, so the loop stops at once, appends
nothing, and keeps the accumulated elements. -/
theorem parse_loop_order_and_error_stop_witness :
    parseLoop subs0 [] (NewDecoder [] 5) =
      ([], (subs0.ReadDataElement (NewDecoder [] 5)).2) :=
  (parse_loop_order_and_error_stop subs0 [] (NewDecoder [] 5)).2.1
    (by decide) (by simp [subs0, NewDecoder, Decoder.SetError])

/-- Helper: when no element of the list has the queried tag, the scan of
`LookupElementByTag` fails with the could-not-find-element error. -/
theorem lookupElementByTag_not_found (elems : List DicomElement) (tag : Tag)
    (h : ∀ elem ∈ elems, elem.Tag ≠ tag) :
    LookupElementByTag elems tag = .error (.elementNotFoundByTag tag) := by
  rw [lookupElementByTag_eq_find]
  have hf : elems.find? (fun elem => decide (elem.Tag = tag)) = none := by
    rw [List.find?_eq_none]
    intro elem hm
    simpa using h elem hm
  rw [hf]

/-- C7: when the meta header is read without a cursor error but none of its
elements carries the transfer-syntax-UID tag, `Parse` returns the
could-not-find-element error for that tag with no file — the early return
fires before any main-dataset element is read. -/
theorem parse_missing_transfer_syntax_element (subs : SubComponents)
    (input : List Nat) (bytes : Nat) (metaElems : List DicomElement)
    (d1 : Decoder)
    (hheader : subs.ParseFileHeader (NewDecoder input bytes) = (metaElems, d1))
    (hok : d1.err = none)
    (habsent : ∀ elem ∈ metaElems, elem.Tag ≠ TagTransferSyntaxUID) :
    Parse subs input bytes =
      .result none (some (.elementNotFoundByTag TagTransferSyntaxUID)) := by
  unfold Parse
  rw [hheader]
  simp only [hok, lookupElementByTag_not_found metaElems TagTransferSyntaxUID habsent]

/-- A closed instance of the C7 theorem: with `subs0`'s meta header (one
element tagged (0002,0002)), `Parse` fails with the could-not-find-element
error for the transfer-syntax tag. -/
theorem parse_missing_transfer_syntax_element_witness :
    Parse subs0 [] 0 =
      .result none (some (.elementNotFoundByTag TagTransferSyntaxUID)) :=
  parse_missing_transfer_syntax_element subs0 [] 0
    [.mk ⟨0x0002, 0x0002⟩ "UI" 0 []] (NewDecoder [] 0) rfl rfl
    (by
      intro elem hm
      rw [List.mem_singleton] at hm
      subst hm
      decide)

/-- C10: `ParseBytes` on a buffer returns exactly the result of `Parse` over
a reader on that buffer with declared total length equal to the buffer's
length. -/
theorem parseBytes_eq_parse_of_length (subs : SubComponents) (data : List Nat) :
    ParseBytes subs data = Parse subs data data.length := rfl

end Dicom
